import Mathlib

set_option maxRecDepth 100000

/-!
Verification of the ssa-demo scrape / filter / download / dedup pipeline.

Shallow embedding of the repository's five source files:

* `config.py`   — the `AppSettings` constants;
* `database.py` — `setup_database`, `hash_exists`, `add_hash` over an
  embedded fragment of SQLite (a table with `hash` as PRIMARY KEY,
  `SELECT ... WHERE hash = ?`, `INSERT OR IGNORE`);
* `utils.py`    — `get_pdf_hash`, a full SHA-256 implementation over byte
  lists (hex-encoded digest);
* `main.py`     — `get_pdf_links`, `download_pdf`, `filter_list` and the
  `__main__` orchestrator, with the HTTP layer modelled as an explicit
  outcome value (success / request error / HTTP status error / unexpected)
  and `urllib.parse` (`urlparse`, `urljoin`) modelled from its documented
  algorithm.

Theorems about the embedding settle the claims of the specification.
-/

namespace SsaDemo

/-! ## config.py -/

namespace AppSettings

/-- `AppSettings.DB_FILE.value` from `config.py`: the string `"ssa.db"`.
It doubles (in `database.py`) as the *name* of the environment variable
consulted by `setup_database` and as the hardcoded database filename used
by `hash_exists` and `add_hash`. -/
def DB_FILE : String := "ssa.db"

/-- `AppSettings.DOWNLOAD_DIR.value` from `config.py`. -/
def DOWNLOAD_DIR : String := "pdf_downloads"

end AppSettings

/-! ## database.py — the dedup store

The `seen_pdfs` table has `hash TEXT PRIMARY KEY, source_url TEXT NOT NULL,
first_seen_utc TIMESTAMP NOT NULL`.  A row is a `SeenPdfRecord`; table
state is the list of rows in insertion order.  The two SQL statements the
module issues against the table are embedded directly:
`SELECT 1 FROM seen_pdfs WHERE hash = ?` and
`INSERT OR IGNORE INTO seen_pdfs ... VALUES (?, ?, ?)` where the
OR IGNORE conflict resolution on the PRIMARY KEY drops the new row
silently when a row with the same `hash` already exists. -/

/-- One row of the `seen_pdfs` table. -/
structure SeenPdfRecord where
  hash : String
  source_url : String
  first_seen_utc : Nat
deriving DecidableEq, Repr

/-- The `seen_pdfs` table: rows in insertion order. -/
abbrev SeenPdfs := List SeenPdfRecord

/-- Embedded SQLite `SELECT 1 FROM seen_pdfs WHERE hash = ?` followed by
`fetchone()`: the first row whose `hash` column equals the parameter,
if any. -/
def selectOneWhereHash (h : String) (db : SeenPdfs) : Option SeenPdfRecord :=
  db.find? (fun r => r.hash == h)

/-- Embedded SQLite `INSERT OR IGNORE` into a table whose PRIMARY KEY is
the `hash` column: appends the row unless a row with the same `hash` is
already present, in which case the statement is a silent no-op. -/
def insertOrIgnore (r : SeenPdfRecord) (db : SeenPdfs) : SeenPdfs :=
  if db.any (fun r0 => r0.hash == r.hash) then db else db ++ [r]

/-- `database.hash_exists`: connects to `AppSettings.DB_FILE.value`,
runs `SELECT 1 FROM seen_pdfs WHERE hash = ?`, and returns whether
`fetchone()` found a row.  The table state is threaded explicitly; the
returned pair is (result, table state after the call). -/
def hash_exists (pdf_hash : String) (db : SeenPdfs) : Bool × SeenPdfs :=
  let row := selectOneWhereHash pdf_hash db
  (row.isSome, db)

/-- `database.add_hash`: connects to `AppSettings.DB_FILE.value` and runs
`INSERT OR IGNORE INTO seen_pdfs (hash, source_url, first_seen_utc)
VALUES (?, ?, ?)` with the current UTC timestamp.  The timestamp is an
explicit argument (`now`), standing for `datetime.now(tz=timezone.utc)`. -/
def add_hash (pdf_hash : String) (pdf_url : String) (now : Nat)
    (db : SeenPdfs) : SeenPdfs :=
  insertOrIgnore ⟨pdf_hash, pdf_url, now⟩ db

/-- The filename `setup_database` resolves for the store:
`os.environ.get(AppSettings.DB_FILE.value, "ssa.db")`, i.e. the value of
the environment variable *named* `"ssa.db"` when set, else `"ssa.db"`.
The environment is an explicit partial map from variable names to
values. -/
def setup_database_file (environ : String → Option String) : String :=
  (environ AppSettings.DB_FILE).getD "ssa.db"

/-- The filename `hash_exists` and `add_hash` connect to:
`sqlite3.connect(AppSettings.DB_FILE.value)` — always the literal
`"ssa.db"`, with no environment lookup. -/
def readwrite_database_file : String := AppSettings.DB_FILE

/-! ## main.py — pattern filter

`filter_list(data, patterns)` keeps the strings for which some compiled
regex pattern's `search` finds a match.  A compiled pattern is modelled by
its match-at-a-position predicate; `re.Pattern.search` succeeds exactly
when the pattern matches at *some* start position of the text (up to and
including the end position, where only patterns that accept the empty
match succeed). -/

/-- Model of a compiled `re.Pattern`: `matchesAt text i` says the pattern
matches `text` at start position `i`. -/
structure RePattern where
  matchesAt : List Char → Nat → Bool

/-- Model of `re.Pattern.search`: scan left to right over the start
positions `0 .. text.length` and succeed when the pattern matches at one
of them (match anywhere, not full-string match). -/
def RePattern.search (p : RePattern) (text : String) : Bool :=
  (List.range (text.toList.length + 1)).any (fun i => p.matchesAt text.toList i)

/-- `main.filter_list`:
`[text for text in data if any(pattern.search(text) for pattern in patterns)]`. -/
def filter_list (data : List String) (patterns : List RePattern) : List String :=
  data.filter (fun text => patterns.any (fun pattern => pattern.search text))

/-- The single pattern of `main.SCHEDULE_72HR_REGEX`:
`re.compile(r"72hr", re.IGNORECASE)` — the literal `72hr` compared
case-insensitively (ASCII lowering, as `re.IGNORECASE` does on these
ASCII characters). -/
def pattern72hr : RePattern :=
  ⟨fun text i => ((text.drop i).take 4).map Char.toLower == String.toList "72hr"⟩

/-- `main.SCHEDULE_72HR_REGEX`. -/
def SCHEDULE_72HR_REGEX : List RePattern := [pattern72hr]

/-! ## main.py — downloader

`download_pdf(url, save_path, **kwargs)` streams the response body to
`save_path` in 8192-byte chunks on success and returns `save_path`; each
of the three `except` arms (`httpx.RequestError`, `httpx.HTTPStatusError`,
bare `Exception`) logs and returns `None`.  `response.raise_for_status()`
runs before anything is written, so an HTTP error status reaches its arm
with the filesystem untouched.  The HTTP exchange is modelled by an
explicit outcome value; a successful response carries the chunk sequence
`iter_bytes` yields (their concatenation is the response body).  The
filesystem is a map from paths to file contents (bytes as `Nat`s < 256);
directory creation by `os.makedirs` is not modelled because the model
tracks files only. -/

/-- Outcome of the HTTP request made by `download_pdf`. -/
inductive HttpOutcome where
  | success (chunks : List (List Nat))
  | requestError (failing_url : String)
  | statusError (code : Nat) (reason : String)
  | unexpected (msg : String)
deriving DecidableEq, Repr

/-- Whether the outcome lands in one of the three `except` arms. -/
def HttpOutcome.isError : HttpOutcome → Bool
  | .success _ => false
  | .requestError _ => true
  | .statusError _ _ => true
  | .unexpected _ => true

/-- Local filesystem state: file path to file bytes, absent when no such
file exists. -/
def FileSystem : Type := String → Option (List Nat)

/-- The open-for-write / chunked-write / close of `download_pdf`'s success
path: the file at `path` ends up holding the chunks written in order. -/
def writeChunkedFile (path : String) (chunks : List (List Nat))
    (fs : FileSystem) : FileSystem :=
  fun p => if p == path then some (chunks.foldl (fun acc c => acc ++ c) []) else fs p

/-- `main.download_pdf`: on success writes every chunk of the body to
`save_path` and returns it; each error arm returns `None` without touching
the filesystem.  Returns (result, filesystem after the call). -/
def download_pdf (outcome : HttpOutcome) (save_path : String)
    (fs : FileSystem) : Option String × FileSystem :=
  match outcome with
  | .success chunks => (some save_path, writeChunkedFile save_path chunks fs)
  | .requestError _ => (none, fs)
  | .statusError _ _ => (none, fs)
  | .unexpected _ => (none, fs)

/-! ## main.py — orchestrator stage 3

`pdfs_72hrs = [download_pdf(pdf_link, f"{DOWNLOAD_DIR}/{uuid4()}.pdf",
headers=HEADERS) for pdf_link in pdf_72hr_links]` — one `download_pdf`
call per filtered link, in order.  The per-link call (with its fresh
UUID filename) is abstracted as an oracle from the link to the optional
saved path. -/

/-- Stage 3 of `__main__`: the list comprehension producing one optional
local path per filtered link, in order. -/
def pdfs_72hrs (download : String → Option String)
    (pdf_72hr_links : List String) : List (Option String) :=
  pdf_72hr_links.map (fun pdf_link => download pdf_link)

/-! ## urllib.parse — modelled from its documented algorithm

`main.py` calls `urlparse(href).path` and `urljoin(url, href)`.  These
library functions are modelled from CPython's `urllib/parse.py`
(`urlsplit`, `_splitparams`, `urljoin`, `urlunsplit`), on `List Char`.
URL `;`-parameters are modelled only where `main.py` observes them (the
`.path` of `urlparse`, which excludes any params of the last segment);
`urljoin` is modelled at the five-component level (scheme, netloc, path,
query, fragment), faithful for URLs whose last path segment carries no
`;`-params. -/

/-- An `<a>` element of the parsed document; `href = none` models an
anchor without an `href` attribute. -/
structure Anchor where
  href : Option String
deriving DecidableEq, Repr

/-- Outcome of `get_pdf_links`'s fetch-and-parse of the page. -/
inductive FetchOutcome where
  | ok (anchors : List Anchor)
  | requestError (failing_url : String)
  | statusError (code : Nat) (reason : String)
  | unexpected (msg : String)
deriving DecidableEq, Repr

/-- Whether the fetch landed in one of the three `except` arms. -/
def FetchOutcome.isError : FetchOutcome → Bool
  | .ok _ => false
  | .requestError _ => true
  | .statusError _ _ => true
  | .unexpected _ => true

/-- Reduce to a 32-bit word. -/
def w32 (n : Nat) : Nat := n % 4294967296

/-- Right rotation of a 32-bit word. -/
def rotr (n x : Nat) : Nat := w32 ((x >>> n) ||| (x <<< (32 - n)))

/-- SHA-256 Σ0. -/
def bsig0 (x : Nat) : Nat := rotr 2 x ^^^ rotr 13 x ^^^ rotr 22 x

/-- SHA-256 Σ1. -/
def bsig1 (x : Nat) : Nat := rotr 6 x ^^^ rotr 11 x ^^^ rotr 25 x

/-- SHA-256 σ0. -/
def ssig0 (x : Nat) : Nat := rotr 7 x ^^^ rotr 18 x ^^^ (x >>> 3)

/-- SHA-256 σ1. -/
def ssig1 (x : Nat) : Nat := rotr 17 x ^^^ rotr 19 x ^^^ (x >>> 10)

/-- SHA-256 Ch. -/
def sha_ch (e f g : Nat) : Nat := (e &&& f) ^^^ ((4294967295 ^^^ e) &&& g)

/-- SHA-256 Maj. -/
def sha_maj (a b c : Nat) : Nat := (a &&& b) ^^^ (a &&& c) ^^^ (b &&& c)

/-- The 64 SHA-256 round constants (FIPS 180-4 §4.2.2, in decimal). -/
def sha_K : List Nat :=
  [1116352408, 1899447441, 3049323471, 3921009573, 961987163,
   1508970993, 2453635748, 2870763221, 3624381080, 310598401,
   607225278, 1426881987, 1925078388, 2162078206, 2614888103,
   3248222580, 3835390401, 4022224774, 264347078, 604807628,
   770255983, 1249150122, 1555081692, 1996064986, 2554220882,
   2821834349, 2952996808, 3210313671, 3336571891, 3584528711,
   113926993, 338241895, 666307205, 773529912, 1294757372,
   1396182291, 1695183700, 1986661051, 2177026350, 2456956037,
   2730485921, 2820302411, 3259730800, 3345764771, 3516065817,
   3600352804, 4094571909, 275423344, 430227734, 506948616,
   659060556, 883997877, 958139571, 1322822218, 1537002063,
   1747873779, 1955562222, 2024104815, 2227730452, 2361852424,
   2428436474, 2756734187, 3204031479, 3329325298]

/-- Eight 32-bit words: the hash state and the final digest. -/
structure Words8 where
  a : Nat
  b : Nat
  c : Nat
  d : Nat
  e : Nat
  f : Nat
  g : Nat
  h : Nat
deriving DecidableEq, Repr

/-- The SHA-256 initial hash value (FIPS 180-4 §5.3.3, in decimal). -/
def sha_H0 : Words8 :=
  ⟨1779033703, 3144134277, 1013904242, 2773480762,
   1359893119, 2600822924, 528734635, 1541459225⟩

/-- Big-endian byte encoding of `n` on `k` bytes. -/
def toBytesBE : Nat → Nat → List Nat
  | 0, _ => []
  | k + 1, n => toBytesBE k (n / 256) ++ [n % 256]

/-- SHA-256 padding: append `0x80`, then zeros up to 56 mod 64, then the
bit length on 8 big-endian bytes. -/
def padBytes (msg : List Nat) : List Nat :=
  msg ++ 0x80 :: List.replicate ((119 - msg.length % 64) % 64) 0
      ++ toBytesBE 8 (8 * msg.length)

/-- Split into 64-byte blocks (`fuel` = number of blocks). -/
def chunkBlocks : Nat → List Nat → List (List Nat)
  | 0, _ => []
  | n + 1, l => l.take 64 :: chunkBlocks n (l.drop 64)

/-- Big-endian bytes to 32-bit words. -/
def bytesToWords : List Nat → List Nat
  | a :: b :: c :: d :: rest => (((a * 256 + b) * 256 + c) * 256 + d) :: bytesToWords rest
  | _ => []

/-- Extend the 16 block words to the 64-entry message schedule. -/
def extendW (w16 : List Nat) : List Nat :=
  (List.range 48).foldl
    (fun w _ =>
      let n := w.length
      w ++ [w32 (ssig1 (w.getD (n - 2) 0) + w.getD (n - 7) 0
            + ssig0 (w.getD (n - 15) 0) + w.getD (n - 16) 0)])
    w16

/-- One SHA-256 compression round; `wk` is the pair (schedule word, round
constant). -/
def sha256round (st : Words8) (wk : Nat × Nat) : Words8 :=
  let t1 := w32 (st.h + bsig1 st.e + sha_ch st.e st.f st.g + wk.2 + wk.1)
  let t2 := w32 (bsig0 st.a + sha_maj st.a st.b st.c)
  ⟨w32 (t1 + t2), st.a, st.b, st.c, w32 (st.d + t1), st.e, st.f, st.g⟩

/-- Compress one 64-byte block into the running hash. -/
def processBlock (H : Words8) (block : List Nat) : Words8 :=
  let W := extendW (bytesToWords block)
  let s := (W.zip sha_K).foldl sha256round H
  ⟨w32 (H.a + s.a), w32 (H.b + s.b), w32 (H.c + s.c), w32 (H.d + s.d),
   w32 (H.e + s.e), w32 (H.f + s.f), w32 (H.g + s.g), w32 (H.h + s.h)⟩

/-- SHA-256 of a byte sequence, as the eight digest words. -/
def sha256words (msg : List Nat) : Words8 :=
  (chunkBlocks ((padBytes msg).length / 64) (padBytes msg)).foldl processBlock sha_H0

/-- Lowercase hex digit for a nibble. -/
def hexDigit (n : Nat) : Char :=
  if n < 10 then Char.ofNat (48 + n) else Char.ofNat (87 + n)

/-- Lowercase big-endian hex encoding of `n` on `k` digits. -/
def toHexChars : Nat → Nat → List Char
  | 0, _ => []
  | k + 1, n => toHexChars k (n / 16) ++ [hexDigit (n % 16)]

/-- `utils.get_pdf_hash`: `hashlib.sha256(pdf_content).hexdigest()` — the
eight digest words, each as 8 lowercase hex digits. -/
def get_pdf_hash (pdf_content : List Nat) : String :=
  let d := sha256words pdf_content
  String.mk (([d.a, d.b, d.c, d.d, d.e, d.f, d.g, d.h]).map (toHexChars 8)).flatten

/-- The empty filesystem (used to instantiate theorems concretely). -/
def emptyFS : FileSystem := fun _ => none

/-! ## Helper lemmas -/

/-- Folding list append from an accumulator concatenates the chunks. -/
theorem foldl_append_eq_flatten (chunks : List (List Nat)) (acc : List Nat) :
    chunks.foldl (fun a c => a ++ c) acc = acc ++ chunks.flatten := by
  induction chunks generalizing acc with
  | nil => simp
  | cons c cs ih => simp [ih, List.append_assoc]

/-- Hex encoding on `k` digits has length `k`. -/
theorem toHexChars_length (k n : Nat) : (toHexChars k n).length = k := by
  induction k generalizing n with
  | zero => rfl
  | succ k ih => simp [toHexChars, ih]

/-- `List.any` on the hash comparison agrees with existence of a record. -/
theorem any_hash_eq (db : SeenPdfs) (h : String) :
    db.any (fun r0 => r0.hash == h) = true ↔ ∃ r ∈ db, r.hash = h := by
  simp [List.any_eq_true]

/-- Inserting into a table that already holds the hash changes nothing. -/
theorem add_hash_of_mem (h url : String) (t : Nat) (db : SeenPdfs)
    (hmem : ∃ r ∈ db, r.hash = h) : add_hash h url t db = db := by
  simp only [add_hash, insertOrIgnore]
  rw [if_pos ((any_hash_eq db h).mpr hmem)]

/-- Inserting into a table free of the hash appends the new row. -/
theorem add_hash_of_fresh (h url : String) (t : Nat) (db : SeenPdfs)
    (hfresh : ∀ r ∈ db, r.hash ≠ h) :
    add_hash h url t db = db ++ [⟨h, url, t⟩] := by
  simp only [add_hash, insertOrIgnore]
  rw [if_neg]
  simp only [List.any_eq_true, beq_iff_eq, not_exists]
  intro r
  exact fun hr => hfresh r hr.1 hr.2

/-- Filtering by a predicate the element satisfies keeps its count. -/
theorem count_filter_of_sat (q : String → Bool) (text : String)
    (l : List String) (hq : q text = true) :
    (l.filter q).count text = l.count text := by
  induction l with
  | nil => rfl
  | cons a l ih =>
    by_cases ha : a = text
    · subst ha
      simp [List.filter_cons, hq, List.count_cons, ih]
    · by_cases hqa : q a <;>
        simp [List.filter_cons, hqa, List.count_cons, ha, ih]

/-! ## The claims -/

/-- Claim C1: Dedup Store insertion is idempotent and preserves
uniqueness — for every store state, inserting a hash that is already
present is a silent no-op; and after inserting the same hash twice into a
state that did not hold it, exactly one record with that hash exists,
carrying the first insertion's `source_url` and `first_seen_utc`. -/
theorem add_hash_idempotent (db : SeenPdfs) (h url url' : String) (t t' : Nat)
    (hfresh : ∀ r ∈ db, r.hash ≠ h) :
    (∀ db0 : SeenPdfs, (∃ r ∈ db0, r.hash = h) → add_hash h url' t' db0 = db0) ∧
    add_hash h url' t' (add_hash h url t db) = add_hash h url t db ∧
    (add_hash h url' t' (add_hash h url t db)).filter (fun r => r.hash == h)
      = [⟨h, url, t⟩] := by
  have h1 : add_hash h url t db = db ++ [⟨h, url, t⟩] :=
    add_hash_of_fresh h url t db hfresh
  have hmem : ∃ r ∈ add_hash h url t db, r.hash = h := by
    refine ⟨⟨h, url, t⟩, ?_, rfl⟩
    rw [h1]; simp
  refine ⟨fun db0 => add_hash_of_mem h url' t' db0, add_hash_of_mem h url' t' _ hmem, ?_⟩
  rw [add_hash_of_mem h url' t' _ hmem, h1, List.filter_append]
  have hnil : db.filter (fun r => r.hash == h) = [] := by
    rw [List.filter_eq_nil_iff]
    intro r hr
    simp [hfresh r hr]
  rw [hnil]
  simp

/-- Claim C1 witness: the theorem instantiated at an empty store state. -/
theorem add_hash_idempotent_witness :
    (∀ db0 : SeenPdfs, (∃ r ∈ db0, r.hash = "h1") →
        add_hash "h1" "http://u2" 9 db0 = db0) ∧
    add_hash "h1" "http://u2" 9 (add_hash "h1" "http://u1" 3 [])
      = add_hash "h1" "http://u1" 3 [] ∧
    (add_hash "h1" "http://u2" 9 (add_hash "h1" "http://u1" 3 [])).filter
        (fun r => r.hash == "h1") = [⟨"h1", "http://u1", 3⟩] :=
  add_hash_idempotent [] "h1" "http://u1" "http://u2" 3 9 (by simp)

/-- Claim C5: the existence check returns false on any store state
holding no record with the hash, and true on any state immediately after
an insert of that hash. -/
theorem hash_exists_spec (h url : String) (t : Nat) (db : SeenPdfs) :
    ((∀ r ∈ db, r.hash ≠ h) → (hash_exists h db).1 = false) ∧
    (hash_exists h (add_hash h url t db)).1 = true := by
  have key : ∀ db1 : SeenPdfs, (∃ r ∈ db1, r.hash = h) →
      (hash_exists h db1).1 = true := by
    intro db1 hmem
    obtain ⟨r, hr, hh⟩ := hmem
    simp only [hash_exists, selectOneWhereHash, List.find?_isSome]
    exact ⟨r, hr, by simp [hh]⟩
  constructor
  · intro hfresh
    have hnone : db.find? (fun r => r.hash == h) = none := by
      rw [List.find?_eq_none]
      intro r hr
      simp [hfresh r hr]
    simp [hash_exists, selectOneWhereHash, hnone]
  · by_cases hmem : ∃ r ∈ db, r.hash = h
    · rw [add_hash_of_mem h url t db hmem]
      exact key db hmem
    · push_neg at hmem
      rw [add_hash_of_fresh h url t db hmem]
      exact key _ ⟨⟨h, url, t⟩, by simp, rfl⟩

/-- Claim C5 witness: the theorem instantiated at an empty store state,
with the fresh-state hypothesis discharged concretely. -/
theorem hash_exists_spec_witness :
    (hash_exists "abc" []).1 = false ∧
    (hash_exists "abc" (add_hash "abc" "http://u" 5 [])).1 = true :=
  ⟨(hash_exists_spec "abc" "http://u" 5 []).1 (by simp),
   (hash_exists_spec "abc" "http://u" 5 []).2⟩

/-- Claim C10: the existence check is read-only — the store state after
the call is the store state before it, every record included. -/
theorem hash_exists_readonly (h : String) (db : SeenPdfs) :
    (hash_exists h db).2 = db := rfl

/-- Claim C8: `setup_database` resolves the store filename from the
environment (falling back to the fixed default), while `hash_exists` and
`add_hash` always use the hardcoded default; with the environment
variable set to a different path, initialization and the reads/writes
address different files. -/
theorem db_file_inconsistency (environ : String → Option String) (p : String)
    (hset : environ "ssa.db" = some p) (hdiff : p ≠ "ssa.db") :
    setup_database_file environ = p ∧
    readwrite_database_file = "ssa.db" ∧
    setup_database_file environ ≠ readwrite_database_file := by
  have h1 : setup_database_file environ = p := by
    simp [setup_database_file, AppSettings.DB_FILE, hset]
  exact ⟨h1, rfl, by rw [h1]; exact hdiff⟩

/-- Claim C8 witness: a concrete environment binding the variable
`"ssa.db"` to `"other.db"`. -/
theorem db_file_inconsistency_witness :
    setup_database_file (fun v => if v = "ssa.db" then some "other.db" else none)
      = "other.db" ∧
    readwrite_database_file = "ssa.db" ∧
    setup_database_file (fun v => if v = "ssa.db" then some "other.db" else none)
      ≠ readwrite_database_file :=
  db_file_inconsistency (fun v => if v = "ssa.db" then some "other.db" else none)
    "other.db" (by simp) (by decide)

/-- Claim C6: the Pattern Filter returns exactly the order-preserving
subsequence of entries matching at least one pattern (OR across patterns,
match-anywhere search), exact up to multiplicity; and on the
specification's example it keeps only the `72hr` link. -/
theorem filter_list_spec (data : List String) (patterns : List RePattern) :
    (filter_list data patterns).Sublist data ∧
    (∀ text, text ∈ filter_list data patterns ↔
      text ∈ data ∧ ∃ p ∈ patterns, p.search text = true) ∧
    (∀ text, (filter_list data patterns).count text =
      if ∃ p ∈ patterns, p.search text = true then data.count text else 0) ∧
    filter_list ["https://x/72hr-schedule.pdf", "https://x/other.pdf"]
        SCHEDULE_72HR_REGEX
      = ["https://x/72hr-schedule.pdf"] := by
  refine ⟨List.filter_sublist data, ?_, ?_, by decide⟩
  · intro text
    simp [filter_list, List.mem_filter, List.any_eq_true]
  · intro text
    by_cases hm : ∃ p ∈ patterns, p.search text = true
    · rw [if_pos hm]
      simp only [filter_list]
      exact count_filter_of_sat _ text data (List.any_eq_true.mpr hm)
    · rw [if_neg hm]
      rw [List.count_eq_zero]
      intro hmem
      simp only [filter_list, List.mem_filter] at hmem
      exact hm (List.any_eq_true.mp hmem.2)

/-- Claim C7: stage 3's outcome list has the same length as the filtered
links, the i-th outcome is the download of the i-th link, and zipping
outcomes with links pairs each outcome with exactly its own URL. -/
theorem pdfs_72hrs_aligned (download : String → Option String)
    (pdf_72hr_links : List String) :
    (pdfs_72hrs download pdf_72hr_links).length = pdf_72hr_links.length ∧
    (∀ i : Nat, (pdfs_72hrs download pdf_72hr_links)[i]?
      = (pdf_72hr_links[i]?).map download) ∧
    (pdfs_72hrs download pdf_72hr_links).zip pdf_72hr_links
      = pdf_72hr_links.map (fun l => (download l, l)) := by
  refine ⟨by simp [pdfs_72hrs], fun i => by simp [pdfs_72hrs], ?_⟩
  have := List.zip_map' (fun l => download l) id pdf_72hr_links
  simpa [pdfs_72hrs] using this

/-- Claim C3: the Downloader writes the full byte-for-byte body (the
concatenation of all streamed chunks) to the destination and returns the
destination path on success; every error outcome returns `none`; an HTTP
error status leaves the filesystem untouched (no file created). -/
theorem download_pdf_contract (save_path : String) (fs : FileSystem) :
    (∀ chunks, (download_pdf (.success chunks) save_path fs).1 = some save_path ∧
      (download_pdf (.success chunks) save_path fs).2 save_path
        = some chunks.flatten) ∧
    (∀ outcome : HttpOutcome, outcome.isError = true →
      (download_pdf outcome save_path fs).1 = none) ∧
    (∀ code reason, (download_pdf (.statusError code reason) save_path fs).2 = fs) := by
  refine ⟨?_, ?_, fun code reason => rfl⟩
  · intro chunks
    refine ⟨rfl, ?_⟩
    simp [download_pdf, writeChunkedFile, foldl_append_eq_flatten]
  · intro outcome herr
    cases outcome with
    | success chunks => simp [HttpOutcome.isError] at herr
    | requestError u => rfl
    | statusError c r => rfl
    | unexpected m => rfl

/-- Claim C3 witness: a concrete successful download and a concrete 404. -/
theorem download_pdf_contract_witness :
    (download_pdf (.success [[1], [2, 3]]) "pdf_downloads/x.pdf" emptyFS).1
      = some "pdf_downloads/x.pdf" ∧
    (download_pdf (.success [[1], [2, 3]]) "pdf_downloads/x.pdf" emptyFS).2
        "pdf_downloads/x.pdf" = some [1, 2, 3] ∧
    (download_pdf (.statusError 404 "Not Found") "pdf_downloads/x.pdf" emptyFS).1
      = none ∧
    (download_pdf (.statusError 404 "Not Found") "pdf_downloads/x.pdf" emptyFS).2
      = emptyFS :=
  ⟨((download_pdf_contract "pdf_downloads/x.pdf" emptyFS).1 [[1], [2, 3]]).1,
   by
    have := ((download_pdf_contract "pdf_downloads/x.pdf" emptyFS).1 [[1], [2, 3]]).2
    simpa using this,
   (download_pdf_contract "pdf_downloads/x.pdf" emptyFS).2.1
     (.statusError 404 "Not Found") rfl,
   (download_pdf_contract "pdf_downloads/x.pdf" emptyFS).2.2 404 "Not Found"⟩

/-- Claim C9: the Content Hasher is a pure deterministic function with a
fixed-length (64 hex characters) digest; on a concrete pair of differing
inputs the digests differ. -/
theorem get_pdf_hash_spec (b1 b2 : List Nat) (heq : b1 = b2) :
    get_pdf_hash b1 = get_pdf_hash b2 ∧
    (get_pdf_hash b1).length = 64 ∧
    get_pdf_hash [] ≠ get_pdf_hash [0] := by
  refine ⟨by rw [heq], ?_, by decide⟩
  show (String.mk _).length = 64
  simp [String.length, toHexChars_length]

/-- Claim C9 witness: the theorem at a concrete byte list. -/
theorem get_pdf_hash_spec_witness :
    get_pdf_hash [37, 80, 68, 70] = get_pdf_hash [37, 80, 68, 70] ∧
    (get_pdf_hash [37, 80, 68, 70]).length = 64 ∧
    get_pdf_hash [] ≠ get_pdf_hash [0] :=
  get_pdf_hash_spec [37, 80, 68, 70] [37, 80, 68, 70] rfl

/-- Validation of the SHA-256 embedding against the FIPS 180-4 test
vector for the empty message. -/
theorem sha256_empty_vector :
    get_pdf_hash []
      = "e3b0c44298fc1c149afbf4c8996fb92427ae41e4649b934ca495991b7852b855" := by
  decide

/-- Validation of the SHA-256 embedding against the FIPS 180-4 test
vector for `"abc"`. -/
theorem sha256_abc_vector :
    get_pdf_hash [97, 98, 99]
      = "ba7816bf8f01cfea414140de5dae2223b00361a396177a9cb410ff61f20015ad" := by
  decide

end SsaDemo
